import Mathlib

/-!
# BudgetBud — verification of the ledger/persistence core

Shallow embedding of `src/budgetbudd.py` (the `Transaction`, `Goal` and
`DataManager` classes, plus the goal-progress computation from
`BudgetBuddy.refresh_goals_table`).

Modelling choices:
* Python `Decimal` values are modelled by `Dec` (sign, coefficient, exponent),
  exactly CPython's `(_sign, _int, _exp)` triple for finite decimals; the
  data-model invariant of the spec restricts amounts to finite, numerically
  valid decimals, so the special values (NaN/Infinity) are outside the model.
  Decimal arithmetic on the *values* is modelled exactly over `ℚ` via `Dec.val`.
* A decimal string is modelled by its parse tree `DecStr` (sign, integer-part
  digits, fraction-part digits, optional exponent): the string grammar used by
  Python's `Decimal` constructor and produced by `Decimal.__str__` is exactly
  this shape, and the mapping between such strings and `DecStr` is a bijection.
  A JSON string in a monetary position either matches the grammar
  (`MoneyStr.valid`) or does not (`MoneyStr.invalid`, on which the `Decimal`
  constructor raises `InvalidOperation`).
* JSON records are modelled structurally; fields the code reads with `d[...]`
  (raising `KeyError` when absent, a case no claim exercises) are plain fields,
  and the `category` field, read with `d.get("category", "Other")`, is an
  `Option`.
* Effects (the `save()` file write, the `messagebox.showwarning` call) are
  returned explicitly as an effect list; exceptions become an `Option Err` in
  the operation outcome, with the state at the moment the exception propagates.
-/

namespace BudgetBud

/-- Python `CATEGORIES` from the source: the fixed category enumeration. -/
def CATEGORIES : List String :=
  ["Food", "Rent", "Entertainment", "Transport", "Utilities", "Savings", "Other"]

/-- A finite Python `Decimal`: CPython stores a sign bit, the coefficient
digit string `_int` (no leading zeros, hence faithfully a `ℕ`), and an
integer exponent `_exp`. -/
structure Dec where
  sign : Bool
  coeff : ℕ
  exp : ℤ
deriving DecidableEq, Repr

/-- Numeric value of a `Dec`, the exact rational `±coeff · 10^exp`. -/
def Dec.val (d : Dec) : ℚ :=
  (if d.sign then -1 else 1) * (d.coeff : ℚ) * (10 : ℚ) ^ d.exp

/-- Parse tree of a decimal numeral string: sign, integer-part digits,
fraction-part digits (empty when there is no `.`), optional exponent
(`none` when there is no `E` part). -/
structure DecStr where
  sign : Bool
  intpart : List ℕ
  fracpart : List ℕ
  expPart : Option ℤ
deriving DecidableEq, Repr

/-- Big-endian digit list of a natural number; `0` renders as `[0]`,
matching `_int = "0"` for a zero coefficient. -/
def natDigits (n : ℕ) : List ℕ :=
  if n = 0 then [0] else (Nat.digits 10 n).reverse

/-- Value of a big-endian digit list (what `int(digitstring)` computes;
leading zeros are immaterial). -/
def ofDigitsBE (l : List ℕ) : ℕ :=
  l.foldl (fun acc d => 10 * acc + d) 0

/-- Python `Decimal.__str__` for finite values, transcribed from CPython
`_pydecimal.Decimal.__str__`: choose the dot position, pad with zeros,
and emit an exponent when the dot is not at `leftdigits`. -/
def decToStr (d : Dec) : DecStr :=
  let digs := natDigits d.coeff
  let leftdigits : ℤ := d.exp + digs.length
  let dotplace : ℤ := if d.exp ≤ 0 ∧ -6 < leftdigits then leftdigits else 1
  let ip_fp : List ℕ × List ℕ :=
    if dotplace ≤ 0 then
      ([0], List.replicate (-dotplace).toNat 0 ++ digs)
    else if (digs.length : ℤ) ≤ dotplace then
      (digs ++ List.replicate (dotplace - digs.length).toNat 0, [])
    else
      (digs.take dotplace.toNat, digs.drop dotplace.toNat)
  ⟨d.sign, ip_fp.1, ip_fp.2,
    if leftdigits = dotplace then none else some (leftdigits - dotplace)⟩

/-- The `Decimal` constructor on a string matching the numeral grammar,
transcribed from CPython: coefficient is `int(intpart + fracpart)` and the
exponent is the written exponent (default 0) minus the fraction length. -/
def decFromStr (s : DecStr) : Dec :=
  ⟨s.sign, ofDigitsBE (s.intpart ++ s.fracpart),
    (s.expPart.getD 0) - s.fracpart.length⟩

/-- A JSON string in a monetary position: either it matches the decimal
numeral grammar (carrying its parse tree) or it does not, in which case
`Decimal(...)` raises `InvalidOperation`. -/
inductive MoneyStr
  | valid (v : DecStr)
  | invalid (raw : String)
deriving DecidableEq, Repr

/-- Exceptions the embedded operations can raise. -/
inductive Err
  | indexError
  | invalidOperation
  | keyError
deriving DecidableEq, Repr

/-- Python `Decimal(str(d["amount"]))`: parse a monetary string, raising
`InvalidOperation` when it is not a valid decimal numeral. -/
def parseMoney : MoneyStr → Except Err Dec
  | .valid v => .ok (decFromStr v)
  | .invalid _ => .error .invalidOperation

/-- The `Transaction` record class. -/
structure Transaction where
  date : String
  description : String
  amount : Dec
  kind : String
  category : String
deriving DecidableEq, Repr

/-- The `Goal` record class. -/
structure Goal where
  name : String
  target : Dec
deriving DecidableEq, Repr

/-- A transaction record as found in the JSON file. `date`, `description`,
`amount` and `kind` are read with `d[...]`; `category` with
`d.get("category", "Other")`, hence optional here. -/
structure TxnRecord where
  date : String
  description : String
  amount : MoneyStr
  kind : String
  category : Option String
deriving DecidableEq, Repr

/-- A goal record as found in the JSON file. -/
structure GoalRecord where
  name : String
  target : MoneyStr
deriving DecidableEq, Repr

/-- Python `Transaction.to_json`. -/
def Transaction.to_json (t : Transaction) : TxnRecord :=
  ⟨t.date, t.description, .valid (decToStr t.amount), t.kind, some t.category⟩

/-- Python `Transaction.from_json`: `Transaction(d["date"], d["description"],
Decimal(str(d["amount"])), d["kind"], d.get("category", "Other"))`; the
`Decimal` call raises before the record is constructed. -/
def Transaction.from_json (d : TxnRecord) : Except Err Transaction :=
  match parseMoney d.amount with
  | .error e => .error e
  | .ok amt => .ok ⟨d.date, d.description, amt, d.kind, d.category.getD "Other"⟩

/-- Python `Goal.to_json`. -/
def Goal.to_json (g : Goal) : GoalRecord :=
  ⟨g.name, .valid (decToStr g.target)⟩

/-- Python `Goal.from_json`: `Goal(d["name"], Decimal(str(d["target"])))`. -/
def Goal.from_json (d : GoalRecord) : Except Err Goal :=
  match parseMoney d.target with
  | .error e => .error e
  | .ok tgt => .ok ⟨d.name, tgt⟩

/-- The mutable state of a `DataManager`: the two ordered sequences. -/
structure State where
  transactions : List Transaction
  goals : List Goal
deriving DecidableEq, Repr

/-- Observable side effects of an operation: `write` is a `save()` file
write, `warn` is the `messagebox.showwarning` call in `load`. -/
inductive Effect
  | warn
  | write
deriving DecidableEq, Repr

/-- Outcome of a `DataManager` operation: the state when the operation
returns (or when the exception propagates), the effects it performed, and
the exception it raised, if any. -/
structure OpOut where
  state : State
  effects : List Effect
  error : Option Err
deriving DecidableEq, Repr

/-- Python list indexing: `i` addresses position `i` when `0 ≤ i < len`,
position `len + i` when `-len ≤ i < 0`, and raises `IndexError` otherwise. -/
def pyIdx (len : ℕ) (i : ℤ) : Option ℕ :=
  if 0 ≤ i ∧ i < (len : ℤ) then some i.toNat
  else if i < 0 ∧ -(len : ℤ) ≤ i then some (i + len).toNat
  else none

namespace DataManager

/-- Python `income_total`: `sum(t.amount for t in self.transactions if t.kind == "Income")`. -/
def income_total (s : State) : ℚ :=
  ((s.transactions.filter (fun t => t.kind == "Income")).map
    (fun t => t.amount.val)).sum

/-- Python `expense_total`: `sum(t.amount for t in self.transactions if t.kind == "Expense")`. -/
def expense_total (s : State) : ℚ :=
  ((s.transactions.filter (fun t => t.kind == "Expense")).map
    (fun t => t.amount.val)).sum

/-- Python `balance`: `income_total() - expense_total()`. -/
def balance (s : State) : ℚ :=
  income_total s - expense_total s

/-- Python `savings_total`: `max(Decimal(0), self.balance())`. -/
def savings_total (s : State) : ℚ :=
  max 0 (balance s)

/-- Python `totals[k] += v` on an insertion-ordered dict: raises `KeyError`
(`none`) when `k` is not a key, otherwise adds `v` at `k` in place. -/
def dictAdd (m : List (String × ℚ)) (k : String) (v : ℚ) :
    Option (List (String × ℚ)) :=
  if m.any (fun p => p.1 == k) then
    some (m.map (fun p => if p.1 == k then (p.1, p.2 + v) else p))
  else none

/-- Python `category_totals`: initialise every category of `CATEGORIES` to 0, then
`totals[t.category] += t.amount` for every Expense transaction; `none`
models the `KeyError` raised when an expense carries a category outside
the dict's keys. -/
def category_totals (s : State) : Option (List (String × ℚ)) :=
  s.transactions.foldl
    (fun acc t => acc.bind (fun m =>
      if t.kind == "Expense" then dictAdd m t.category t.amount.val else some m))
    (some (CATEGORIES.map (fun c => (c, (0 : ℚ)))))

/-- Python `add_transaction`: append, then `save()`. -/
def add_transaction (s : State) (t : Transaction) : OpOut :=
  ⟨⟨s.transactions ++ [t], s.goals⟩, [.write], none⟩

/-- Python `update_transaction`: `self.transactions[index] = t; self.save()`; the
subscript raises `IndexError` before any mutation when `index` is out of
range. -/
def update_transaction (s : State) (i : ℤ) (t : Transaction) : OpOut :=
  match pyIdx s.transactions.length i with
  | none => ⟨s, [], some .indexError⟩
  | some n => ⟨⟨s.transactions.set n t, s.goals⟩, [.write], none⟩

/-- Python `delete_transaction`: `self.transactions.pop(index); self.save()`. -/
def delete_transaction (s : State) (i : ℤ) : OpOut :=
  match pyIdx s.transactions.length i with
  | none => ⟨s, [], some .indexError⟩
  | some n => ⟨⟨s.transactions.eraseIdx n, s.goals⟩, [.write], none⟩

/-- Python `add_goal`: append, then `save()`. -/
def add_goal (s : State) (g : Goal) : OpOut :=
  ⟨⟨s.transactions, s.goals ++ [g]⟩, [.write], none⟩

/-- Python `update_goal`: `self.goals[index] = g; self.save()`. -/
def update_goal (s : State) (i : ℤ) (g : Goal) : OpOut :=
  match pyIdx s.goals.length i with
  | none => ⟨s, [], some .indexError⟩
  | some n => ⟨⟨s.transactions, s.goals.set n g⟩, [.write], none⟩

/-- Python `delete_goal`: `self.goals.pop(index); self.save()`. -/
def delete_goal (s : State) (i : ℤ) : OpOut :=
  match pyIdx s.goals.length i with
  | none => ⟨s, [], some .indexError⟩
  | some n => ⟨⟨s.transactions, s.goals.eraseIdx n⟩, [.write], none⟩

/-- The parsed JSON value of the data file when `json.loads` succeeds:
either an object (whose `transactions` / `goals` fields may be absent,
via `data.get(..., [])`) or a bare list of transaction records. -/
inductive StoreData
  | obj (transactions : Option (List TxnRecord)) (goals : Option (List GoalRecord))
  | list (records : List TxnRecord)
deriving DecidableEq, Repr

/-- The data file as `load` sees it: absent, present but not valid JSON
(`json.loads` raises `JSONDecodeError`), or well-formed. -/
inductive StoreFile
  | absent
  | malformed
  | wellFormed (d : StoreData)
deriving DecidableEq, Repr

/-- Python `[f(x) for x in l]` where `f` may raise: the first exception
propagates. -/
def mapE {α β : Type} (f : α → Except Err β) : List α → Except Err (List β)
  | [] => .ok []
  | x :: xs =>
    match f x with
    | .error e => .error e
    | .ok y =>
      match mapE f xs with
      | .error e => .error e
      | .ok ys => .ok (y :: ys)

/-- Python `save`: serialise both sequences into the two-field object
(`json.dumps` of it is the file's content). -/
def saveData (s : State) : StoreData :=
  .obj (some (s.transactions.map Transaction.to_json))
       (some (s.goals.map Goal.to_json))

/-- Python `load`, on pre-state `s`: an absent file returns with the state
untouched; a malformed file warns and returns with the state untouched; a
bare list is reinterpreted as `{transactions: it, goals: []}`; then
`self.transactions` is assigned before the goals are parsed, so an
exception while parsing goals leaves the new transactions in place.
`load` performs no file write. -/
def load (s : State) (f : StoreFile) : OpOut :=
  match f with
  | .absent => ⟨s, [], none⟩
  | .malformed => ⟨s, [.warn], none⟩
  | .wellFormed d =>
    let recs : List TxnRecord × List GoalRecord :=
      match d with
      | .list rs => (rs, [])
      | .obj ts gs => (ts.getD [], gs.getD [])
    match mapE Transaction.from_json recs.1 with
    | .error e => ⟨s, [], some e⟩
    | .ok txns =>
      match mapE Goal.from_json recs.2 with
      | .error e => ⟨⟨txns, s.goals⟩, [], some e⟩
      | .ok gs => ⟨⟨txns, gs⟩, [], none⟩

/-- Python `DataManager.__init__`: start from empty sequences, then `load()`. -/
def init (f : StoreFile) : OpOut :=
  load ⟨[], []⟩ f

end DataManager

/-- Goal progress as computed in `BudgetBuddy.refresh_goals_table`:
`pct = min(1, float(bal / g.target) if g.target > 0 else 1)`, with the
exact rational in place of the `float` conversion. -/
def goalProgress (s : State) (g : Goal) : ℚ :=
  min 1 (if 0 < g.target.val then DataManager.balance s / g.target.val else 1)

/-- The position a valid Python index `i` addresses: `i` itself when
`0 ≤ i`, `len + i` when `i < 0`. -/
def pyNorm (len : ℕ) (i : ℤ) : ℕ :=
  if 0 ≤ i then i.toNat else (i + len).toNat

/-- One mutating call on the `DataManager`. -/
inductive Op
  | addTxn (t : Transaction)
  | updateTxn (i : ℤ) (t : Transaction)
  | deleteTxn (i : ℤ)
  | addGoal (g : Goal)
  | updateGoal (i : ℤ) (g : Goal)
  | deleteGoal (i : ℤ)
deriving DecidableEq, Repr

/-- Dispatch one mutating call. -/
def applyOp (s : State) : Op → OpOut
  | .addTxn t => DataManager.add_transaction s t
  | .updateTxn i t => DataManager.update_transaction s i t
  | .deleteTxn i => DataManager.delete_transaction s i
  | .addGoal g => DataManager.add_goal s g
  | .updateGoal i g => DataManager.update_goal s i g
  | .deleteGoal i => DataManager.delete_goal s i

/-- State after a sequence of mutating calls (a raised `IndexError` aborts
that one call and leaves the state as it was). -/
def applyOps (s : State) : List Op → State
  | [] => s
  | o :: os => applyOps (applyOp s o).state os

/-! ## Concrete fixtures used by the witnesses and counterexamples -/

/-- Python `Decimal("1")`. -/
def decOne : Dec := ⟨false, 1, 0⟩

/-- Python `Decimal("0")`. -/
def decZero : Dec := ⟨false, 0, 0⟩

/-- The numeral string `"1"`. -/
def oneStr : DecStr := ⟨false, [1], [], none⟩

/-- An expense of 1 in category Food. -/
def exTxnExpense : Transaction :=
  ⟨"01/01/2025 00:00", "lunch", decOne, "Expense", "Food"⟩

/-- An income of 1. -/
def exTxnIncome : Transaction :=
  ⟨"01/01/2025 00:00", "pay", decOne, "Income", "Other"⟩

/-- A ledger holding the single expense: its balance is `-1`. -/
def oneTxnState : State := ⟨[exTxnExpense], []⟩

/-- A goal with target 1. -/
def unitGoal : Goal := ⟨"trip", decOne⟩

/-- A goal with target 0. -/
def zeroGoal : Goal := ⟨"rainy day", decZero⟩

/-- A stored transaction record whose category `"Pets"` is outside
`CATEGORIES`. -/
def petsRecord : TxnRecord :=
  ⟨"01/01/2025 00:00", "vet", .valid oneStr, "Expense", some "Pets"⟩

/-- The transaction `petsRecord` loads to. -/
def petsTxn : Transaction :=
  ⟨"01/01/2025 00:00", "vet", decOne, "Expense", "Pets"⟩

/-- A ledger holding an expense in the unknown category `"Pets"`. -/
def petsState : State := ⟨[petsTxn], []⟩

/-- A stored transaction record with no `category` field. -/
def noCatRecord : TxnRecord :=
  ⟨"01/01/2025 00:00", "pay", .valid oneStr, "Income", none⟩

/-- The transaction `noCatRecord` loads to. -/
def noCatTxn : Transaction :=
  ⟨"01/01/2025 00:00", "pay", decOne, "Income", "Other"⟩

/-- A stored transaction record whose amount string `"abc"` is not a
decimal numeral. -/
def badRecord : TxnRecord :=
  ⟨"01/01/2025 00:00", "x", .invalid "abc", "Expense", some "Food"⟩

/-- A stored goal record whose target string is not a decimal numeral. -/
def badGoalRecord : GoalRecord := ⟨"g", .invalid "oops"⟩

/-- A well-formed transaction record: the stored form of `exTxnIncome`. -/
def goodRecord : TxnRecord :=
  ⟨"01/01/2025 00:00", "pay", .valid oneStr, "Income", some "Other"⟩

/-- A second well-formed transaction record: the stored form of
`exTxnExpense`. -/
def goodRecord2 : TxnRecord :=
  ⟨"01/01/2025 00:00", "lunch", .valid oneStr, "Expense", some "Food"⟩

/-- The per-entry update `totals[k] += v` performs on a dict entry: add
`v` at the matching key, leave other entries alone (the unfolded body of
`dictAdd`'s map). -/
def bump (k : String) (v : ℚ) : String × ℚ → String × ℚ :=
  fun p => if p.1 == k then (p.1, p.2 + v) else p

/-- Sum of the amounts of the Expense transactions of category `c` in a
transaction list — the value `category_totals` accumulates at key `c`. -/
def expSumIn (l : List Transaction) (c : String) : ℚ :=
  ((l.filter (fun t => t.kind == "Expense" && t.category == c)).map
    (fun t => t.amount.val)).sum

/-! ## Digit-string arithmetic -/

theorem ofDigitsBE_foldl (l : List ℕ) (acc : ℕ) :
    l.foldl (fun a d => 10 * a + d) acc = acc * 10 ^ l.length + ofDigitsBE l := by
  induction l generalizing acc with
  | nil => simp [ofDigitsBE]
  | cons d l ih =>
    simp only [List.foldl_cons, ofDigitsBE, List.length_cons]
    rw [ih, ih]
    ring

theorem ofDigitsBE_append (l₁ l₂ : List ℕ) :
    ofDigitsBE (l₁ ++ l₂) = ofDigitsBE l₁ * 10 ^ l₂.length + ofDigitsBE l₂ := by
  show (l₁ ++ l₂).foldl _ 0 = _
  rw [List.foldl_append, ofDigitsBE_foldl]
  rfl

theorem ofDigitsBE_replicate_zero (k : ℕ) :
    ofDigitsBE (List.replicate k 0) = 0 := by
  induction k with
  | zero => rfl
  | succ n ih =>
    rw [List.replicate_succ]
    show (List.replicate n 0).foldl _ (10 * 0 + 0) = 0
    simpa [ofDigitsBE] using ih

theorem ofDigitsBE_reverse (l : List ℕ) :
    ofDigitsBE l.reverse = Nat.ofDigits 10 l := by
  induction l with
  | cons d l ih =>
    rw [List.reverse_cons, ofDigitsBE_append, ih, Nat.ofDigits_cons]
    simp [ofDigitsBE]
    ring
  | nil => rfl

theorem ofDigitsBE_natDigits (n : ℕ) : ofDigitsBE (natDigits n) = n := by
  unfold natDigits
  by_cases h : n = 0
  · simp [h]; rfl
  · rw [if_neg h, ofDigitsBE_reverse, Nat.ofDigits_digits]

theorem natDigits_ne_nil (n : ℕ) : natDigits n ≠ [] := by
  unfold natDigits
  by_cases h : n = 0
  · simp [h]
  · rw [if_neg h]
    simpa using Nat.digits_ne_nil_iff_ne_zero.mpr h

theorem ofDigitsBE_zero_digit : ofDigitsBE [0] = 0 := rfl

/-! ## The decimal string round trip -/

/-- Python `Decimal(str(d)) == d`, representation included: CPython's
`__str__`/constructor pair reproduces sign, coefficient and exponent
exactly for every finite decimal. -/
theorem decFromStr_decToStr (d : Dec) : decFromStr (decToStr d) = d := by
  obtain ⟨sg, c, e⟩ := d
  have hof : ofDigitsBE (natDigits c) = c := ofDigitsBE_natDigits c
  have hlen : 1 ≤ (natDigits c).length :=
    List.length_pos.mpr (natDigits_ne_nil c)
  simp only [decToStr, decFromStr]
  set L : ℕ := (natDigits c).length with hL
  split_ifs with h1 h2 h3 h4 h5 h6 h7 h8 <;>
    simp only [Dec.mk.injEq, List.length_append, List.length_replicate,
      List.length_take, List.length_drop, List.append_nil, List.length_nil,
      List.take_append_drop, Option.getD_some, Option.getD_none,
      ofDigitsBE_append, ofDigitsBE_replicate_zero, ofDigitsBE_zero_digit,
      hof, zero_mul, zero_add, add_zero, true_and]
  all_goals try constructor
  all_goals try omega
  all_goals first
  | (rw [show ((e + (L : ℤ) - (L : ℤ)).toNat = 0) from by omega]; simp)
  | (rw [show (((1 : ℤ) - (L : ℤ)).toNat = 0) from by omega]; simp)

/-! ## Record-level round trips -/

theorem txn_from_json_roundtrip (t : Transaction) :
    Transaction.from_json (Transaction.to_json t) = .ok t := by
  simp [Transaction.from_json, Transaction.to_json, parseMoney, decFromStr_decToStr]

theorem goal_from_json_roundtrip (g : Goal) :
    Goal.from_json (Goal.to_json g) = .ok g := by
  simp [Goal.from_json, Goal.to_json, parseMoney, decFromStr_decToStr]

theorem mapE_map_ok {α β : Type} (f : β → Except Err α) (g : α → β)
    (h : ∀ x, f (g x) = .ok x) :
    ∀ l : List α, DataManager.mapE f (l.map g) = .ok l := by
  intro l
  induction l with
  | nil => rfl
  | cons x xs ih => simp [DataManager.mapE, h, ih]

/-! ## Claim theorems -/

/-- C4: for every ledger `L` (any transactions and goals, any order, any
exact-decimal amounts and targets), `load(save(L)) == L` exactly — the same
transactions and goals, in the same order, with identical decimal values
(representation included), regardless of the in-memory state `load` starts
from; and the reload raises nothing, warns of nothing and writes nothing. -/
theorem load_save_roundtrip (s₀ s : State) :
    DataManager.load s₀ (.wellFormed (DataManager.saveData s)) = ⟨s, [], none⟩ := by
  simp [DataManager.load, DataManager.saveData,
    mapE_map_ok Transaction.from_json Transaction.to_json txn_from_json_roundtrip,
    mapE_map_ok Goal.from_json Goal.to_json goal_from_json_roundtrip]

/-- C6: at startup, a data file whose text cannot be parsed as JSON makes
`load` warn the operator and leave the in-memory ledger empty, with no
exception and no file write (the corrupt file is untouched); an absent
file yields the empty ledger with no error and no effect at all. -/
theorem load_corrupt_and_absent :
    DataManager.init .malformed = ⟨⟨[], []⟩, [.warn], none⟩ ∧
    Effect.write ∉ (DataManager.init .malformed).effects ∧
    DataManager.init .absent = ⟨⟨[], []⟩, [], none⟩ := by
  refine ⟨rfl, ?_, rfl⟩
  decide

/-- C8: a file whose top level is a bare list of transaction records is
reinterpreted as `{transactions: that list, goals: []}` — when the records
all parse, the loaded ledger holds exactly those transactions in order and
no goals. -/
theorem load_bare_list (s : State) (recs : List TxnRecord)
    (txns : List Transaction)
    (h : DataManager.mapE Transaction.from_json recs = .ok txns) :
    DataManager.load s (.wellFormed (.list recs)) = ⟨⟨txns, []⟩, [], none⟩ := by
  simp [DataManager.load, h, DataManager.mapE]

/-- Witness for C8: a bare two-record file loads to exactly those two
transactions and an empty goal sequence. -/
theorem load_bare_list_witness :
    DataManager.load ⟨[], []⟩ (.wellFormed (.list [goodRecord, goodRecord2]))
      = ⟨⟨[exTxnIncome, exTxnExpense], []⟩, [], none⟩ :=
  load_bare_list ⟨[], []⟩ [goodRecord, goodRecord2] [exTxnIncome, exTxnExpense]
    (by rfl)

/-- C9: after every sequence of add/update/delete operations from any
starting state, `balance() = incomeTotal() - expenseTotal()` and
`savingsTotal()` equals the balance when it is nonnegative and `0`
otherwise; and all four aggregates are zero on the empty ledger. -/
theorem aggregates_invariant (s : State) (ops : List Op) :
    DataManager.balance (applyOps s ops) =
      DataManager.income_total (applyOps s ops) -
        DataManager.expense_total (applyOps s ops) ∧
    DataManager.savings_total (applyOps s ops) =
      (if 0 ≤ DataManager.balance (applyOps s ops) then
        DataManager.balance (applyOps s ops) else 0) ∧
    DataManager.income_total ⟨[], []⟩ = 0 ∧
    DataManager.expense_total ⟨[], []⟩ = 0 ∧
    DataManager.balance ⟨[], []⟩ = 0 ∧
    DataManager.savings_total ⟨[], []⟩ = 0 := by
  refine ⟨rfl, ?_, rfl, rfl, ?_, ?_⟩
  · rw [DataManager.savings_total, max_def]
  · show (0 : ℚ) - 0 = 0
    norm_num
  · show max 0 ((0 : ℚ) - 0) = 0
    norm_num

/-- C10: every transaction mutator leaves the goals sequence unchanged and
every goal mutator leaves the transactions sequence unchanged, for every
starting state and every argument, out-of-range indices included. -/
theorem mutators_frame (s : State) (i : ℤ) (t : Transaction) (g : Goal) :
    (DataManager.add_transaction s t).state.goals = s.goals ∧
    (DataManager.update_transaction s i t).state.goals = s.goals ∧
    (DataManager.delete_transaction s i).state.goals = s.goals ∧
    (DataManager.add_goal s g).state.transactions = s.transactions ∧
    (DataManager.update_goal s i g).state.transactions = s.transactions ∧
    (DataManager.delete_goal s i).state.transactions = s.transactions := by
  refine ⟨rfl, ?_, ?_, rfl, ?_, ?_⟩
  · unfold DataManager.update_transaction
    cases pyIdx s.transactions.length i <;> rfl
  · unfold DataManager.delete_transaction
    cases pyIdx s.transactions.length i <;> rfl
  · unfold DataManager.update_goal
    cases pyIdx s.goals.length i <;> rfl
  · unfold DataManager.delete_goal
    cases pyIdx s.goals.length i <;> rfl

/-- C1 counterexample: the claim says `goalProgress` lies in `[0, 1]` for
any balance, with an explicit floor at 0 for negative balances. The code
computes `min(1, bal/target)` with no floor: on a ledger holding a single
expense of 1 (balance `-1`) and a goal with target 1, the progress is
`-1`, outside `[0, 1]`. -/
theorem goalProgress_no_floor_counterexample :
    goalProgress oneTxnState unitGoal = -1 := by
  norm_num [goalProgress, DataManager.balance, DataManager.income_total,
    DataManager.expense_total, oneTxnState, exTxnExpense, unitGoal, decOne,
    Dec.val, List.filter, show ("Expense" == "Income") = false from rfl,
    show ("Expense" == "Expense") = true from rfl]

/-- C1 amended: `goalProgress` is `1` whenever the target is nonpositive,
equals `min(1, balance/target)` when the target is positive, and is always
at most `1` — but it is not floored at 0, so it is negative whenever the
balance is negative and the target positive. -/
theorem goalProgress_amended (s : State) (g : Goal) :
    (g.target.val ≤ 0 → goalProgress s g = 1) ∧
    (0 < g.target.val →
      goalProgress s g = min 1 (DataManager.balance s / g.target.val)) ∧
    goalProgress s g ≤ 1 := by
  unfold goalProgress
  refine ⟨fun h => ?_, fun h => ?_, min_le_left _ _⟩
  · rw [if_neg (not_lt.mpr h), min_self]
  · rw [if_pos h]

/-- Witness for C1: a zero-target goal reports full progress, and progress
never exceeds 1. -/
theorem goalProgress_amended_witness :
    goalProgress oneTxnState zeroGoal = 1 ∧
    goalProgress oneTxnState unitGoal ≤ 1 :=
  ⟨(goalProgress_amended oneTxnState zeroGoal).1
      (by norm_num [zeroGoal, decZero, Dec.val]),
   (goalProgress_amended oneTxnState unitGoal).2.2⟩

/-- C2 counterexample: the claim says an out-of-enumeration category
degrades to `"Other"` on load. Loading a record with category `"Pets"`
keeps `"Pets"`, which is outside `CATEGORIES` and is not `"Other"`: only a
*missing* category field defaults to `"Other"`. -/
theorem load_keeps_unknown_category :
    (DataManager.load ⟨[], []⟩
        (.wellFormed (.list [petsRecord]))).state.transactions = [petsTxn] ∧
    petsTxn.category ∉ CATEGORIES ∧ petsTxn.category ≠ "Other" := by
  refine ⟨by rfl, by decide, by decide⟩

/-- C2 amended: a loaded transaction's category is the record's category
field when present — recognized or not — and `"Other"` only when the field
is absent. -/
theorem from_json_category_amended (d : TxnRecord) (t : Transaction)
    (h : Transaction.from_json d = .ok t) :
    t.category = d.category.getD "Other" := by
  unfold Transaction.from_json at h
  cases hp : parseMoney d.amount with
  | error e => rw [hp] at h; cases h
  | ok amt =>
    rw [hp] at h
    injection h with h2
    rw [← h2]

/-- Witness for C2: a record with no category field loads with category
`"Other"`. -/
theorem from_json_category_amended_witness :
    noCatTxn.category = noCatRecord.category.getD "Other" :=
  from_json_category_amended noCatRecord noCatTxn (by rfl)

theorem pyIdx_none (len : ℕ) (i : ℤ)
    (h : i < -(len : ℤ) ∨ (len : ℤ) ≤ i) : pyIdx len i = none := by
  unfold pyIdx
  split_ifs with h1 h2
  · exfalso; omega
  · exfalso; omega
  · rfl

theorem pyIdx_some (len : ℕ) (i : ℤ) (h1 : -(len : ℤ) ≤ i)
    (h2 : i < (len : ℤ)) : pyIdx len i = some (pyNorm len i) := by
  unfold pyIdx pyNorm
  split_ifs <;> first | rfl | omega

/-- C3 counterexample: the claim says every negative index fails with an
out-of-range condition and no write. On a one-element transaction list,
index `-1` is a valid Python index: the update succeeds, replaces the last
element, and triggers a persistence write. -/
theorem update_negative_index_counterexample :
    (DataManager.update_transaction oneTxnState (-1) exTxnIncome).error = none ∧
    (DataManager.update_transaction oneTxnState (-1) exTxnIncome).effects
      = [.write] ∧
    (DataManager.update_transaction oneTxnState (-1)
        exTxnIncome).state.transactions = [exTxnIncome] := by
  refine ⟨by rfl, by rfl, by rfl⟩

/-- C3 amended: update/delete of transactions and goals fail with an
out-of-range condition — leaving the state unchanged and writing nothing —
exactly when the index is `< -len` or `≥ len`; for indices in `[-len, len)`
(negative ones addressing from the end, Python-style) they replace/remove
the addressed element and trigger a persistence write. -/
theorem index_ops_amended (s : State) (i : ℤ) (t : Transaction) (g : Goal) :
    ((i < -(s.transactions.length : ℤ) ∨ (s.transactions.length : ℤ) ≤ i) →
      DataManager.update_transaction s i t = ⟨s, [], some .indexError⟩ ∧
      DataManager.delete_transaction s i = ⟨s, [], some .indexError⟩) ∧
    (-(s.transactions.length : ℤ) ≤ i → i < (s.transactions.length : ℤ) →
      DataManager.update_transaction s i t =
        ⟨⟨s.transactions.set (pyNorm s.transactions.length i) t, s.goals⟩,
          [.write], none⟩ ∧
      DataManager.delete_transaction s i =
        ⟨⟨s.transactions.eraseIdx (pyNorm s.transactions.length i), s.goals⟩,
          [.write], none⟩) ∧
    ((i < -(s.goals.length : ℤ) ∨ (s.goals.length : ℤ) ≤ i) →
      DataManager.update_goal s i g = ⟨s, [], some .indexError⟩ ∧
      DataManager.delete_goal s i = ⟨s, [], some .indexError⟩) ∧
    (-(s.goals.length : ℤ) ≤ i → i < (s.goals.length : ℤ) →
      DataManager.update_goal s i g =
        ⟨⟨s.transactions, s.goals.set (pyNorm s.goals.length i) g⟩,
          [.write], none⟩ ∧
      DataManager.delete_goal s i =
        ⟨⟨s.transactions, s.goals.eraseIdx (pyNorm s.goals.length i)⟩,
          [.write], none⟩) := by
  refine ⟨fun h => ?_, fun h1 h2 => ?_, fun h => ?_, fun h1 h2 => ?_⟩
  · constructor <;>
      simp [DataManager.update_transaction, DataManager.delete_transaction,
        pyIdx_none _ _ h]
  · constructor <;>
      simp [DataManager.update_transaction, DataManager.delete_transaction,
        pyIdx_some _ _ h1 h2]
  · constructor <;>
      simp [DataManager.update_goal, DataManager.delete_goal, pyIdx_none _ _ h]
  · constructor <;>
      simp [DataManager.update_goal, DataManager.delete_goal,
        pyIdx_some _ _ h1 h2]

/-- Witness for C3: on the one-transaction ledger, index 5 is rejected
without a write and index 0 replaces the element with a write. -/
theorem index_ops_amended_witness :
    DataManager.update_transaction oneTxnState 5 exTxnIncome
      = ⟨oneTxnState, [], some .indexError⟩ ∧
    DataManager.update_transaction oneTxnState 0 exTxnIncome
      = ⟨⟨[exTxnIncome], []⟩, [.write], none⟩ := by
  constructor
  · exact ((index_ops_amended oneTxnState 5 exTxnIncome unitGoal).1
      (by decide)).1
  · exact (((index_ops_amended oneTxnState 0 exTxnIncome unitGoal).2.1
      (by decide) (by decide)).1).trans (by rfl)

theorem from_json_error_invalidOp (d : TxnRecord) (e : Err)
    (h : Transaction.from_json d = .error e) : e = .invalidOperation := by
  cases hd : d.amount with
  | valid v => simp [Transaction.from_json, parseMoney, hd] at h
  | invalid raw =>
    simp [Transaction.from_json, parseMoney, hd] at h
    exact h.symm

theorem goal_from_json_error_invalidOp (d : GoalRecord) (e : Err)
    (h : Goal.from_json d = .error e) : e = .invalidOperation := by
  cases hd : d.target with
  | valid v => simp [Goal.from_json, parseMoney, hd] at h
  | invalid raw =>
    simp [Goal.from_json, parseMoney, hd] at h
    exact h.symm

theorem mapE_error_of_mem {α β : Type} (f : α → Except Err β)
    (hf : ∀ x e, f x = .error e → e = .invalidOperation)
    (l : List α) (r : α) (hm : r ∈ l) (er : Err) (hr : f r = .error er) :
    DataManager.mapE f l = .error .invalidOperation := by
  induction l with
  | nil => cases hm
  | cons x xs ih =>
    unfold DataManager.mapE
    cases hfx : f x with
    | error e => rw [hf x e hfx]
    | ok y =>
      cases hm with
      | head =>
        rw [hfx] at hr
        cases hr
      | tail _ hmem => rw [ih hmem]

/-- C5: when the file's structure parses but some monetary string — a
transaction's amount or a goal's target — is not a valid decimal numeral,
`load` raises the invalid-decimal error (Python: `decimal.InvalidOperation`
propagating out of `load`, the §7 `ValidationError` condition), so the
value is surfaced as an error and never silently coerced to zero. -/
theorem load_invalid_money_raises (s : State) (ts : List TxnRecord)
    (gs : List GoalRecord) (r : TxnRecord) (q : GoalRecord) (raw : String) :
    (r ∈ ts → r.amount = .invalid raw →
      (DataManager.load s (.wellFormed (.obj (some ts) (some gs)))).error =
        some .invalidOperation) ∧
    (q ∈ gs → q.target = .invalid raw →
      ∀ txns, DataManager.mapE Transaction.from_json ts = .ok txns →
        (DataManager.load s (.wellFormed (.obj (some ts) (some gs)))).error =
          some .invalidOperation) := by
  constructor
  · intro hm hr
    have herr : DataManager.mapE Transaction.from_json ts =
        .error .invalidOperation :=
      mapE_error_of_mem Transaction.from_json from_json_error_invalidOp ts r hm
        .invalidOperation
        (by simp [Transaction.from_json, parseMoney, hr])
    simp [DataManager.load, herr]
  · intro hm hr txns htx
    have herr : DataManager.mapE Goal.from_json gs =
        .error .invalidOperation :=
      mapE_error_of_mem Goal.from_json goal_from_json_error_invalidOp gs q hm
        .invalidOperation
        (by simp [Goal.from_json, parseMoney, hr])
    simp [DataManager.load, htx, herr]

/-- Witness for C5: a file with the unparseable amount string `"abc"`
makes `load` raise, and so does one with the unparseable goal target
`"oops"`. -/
theorem load_invalid_money_raises_witness :
    (DataManager.load ⟨[], []⟩
        (.wellFormed (.obj (some [badRecord]) (some [])))).error =
      some .invalidOperation ∧
    (DataManager.load ⟨[], []⟩
        (.wellFormed (.obj (some []) (some [badGoalRecord])))).error =
      some .invalidOperation :=
  ⟨(load_invalid_money_raises ⟨[], []⟩ [badRecord] [] badRecord badGoalRecord
      "abc").1 (by decide) (by rfl),
   (load_invalid_money_raises ⟨[], []⟩ [] [badGoalRecord] badRecord
      badGoalRecord "oops").2 (by decide) (by rfl) [] (by rfl)⟩

theorem dictAdd_of_mem (m : List (String × ℚ)) (k : String) (v : ℚ)
    (h : k ∈ m.map Prod.fst) :
    DataManager.dictAdd m k v = some (m.map (bump k v)) := by
  have hc : (m.any (fun p => p.1 == k)) = true := by
    rw [List.any_eq_true]
    obtain ⟨p, hp, he⟩ := List.mem_map.mp h
    exact ⟨p, hp, by simp [he]⟩
  unfold DataManager.dictAdd
  rw [if_pos hc]
  rfl

theorem bump_fst (k : String) (v : ℚ) (p : String × ℚ) :
    (bump k v p).1 = p.1 := by
  unfold bump
  split_ifs <;> rfl

theorem bump_keys (m : List (String × ℚ)) (k : String) (v : ℚ) :
    (m.map (bump k v)).map Prod.fst = m.map Prod.fst := by
  rw [List.map_map]
  exact List.map_congr_left (fun p _ => bump_fst k v p)

theorem count_CATEGORIES (k : String) (h : k ∈ CATEGORIES) :
    CATEGORIES.count k = 1 := by
  simp only [CATEGORIES, List.mem_cons, List.not_mem_nil, or_false] at h
  rcases h with rfl | rfl | rfl | rfl | rfl | rfl | rfl <;> decide

theorem expSumIn_cons (t : Transaction) (l : List Transaction) (c : String) :
    expSumIn (t :: l) c =
      (if (t.kind == "Expense" && t.category == c) = true then t.amount.val
        else 0) + expSumIn l c := by
  unfold expSumIn
  rw [List.filter_cons]
  by_cases hc : (t.kind == "Expense" && t.category == c) = true
  · rw [if_pos hc, if_pos hc, List.map_cons, List.sum_cons]
  · rw [if_neg hc, if_neg hc, zero_add]

theorem expSumIn_eq_zero (l : List Transaction) (c : String)
    (h : ∀ t ∈ l, t.kind = "Expense" → t.category ≠ c) : expSumIn l c = 0 := by
  induction l with
  | nil => rfl
  | cons t l ih =>
    rw [expSumIn_cons]
    have hcond : (t.kind == "Expense" && t.category == c) = false := by
      by_cases hki : t.kind = "Expense"
      · simp [hki, h t (List.mem_cons_self t l) hki]
      · simp [hki]
    rw [hcond, if_neg Bool.false_ne_true, zero_add]
    exact ih (fun u hu => h u (List.mem_cons_of_mem t hu))

theorem sum_if_mem (cs : List String) (k : String) (v : ℚ)
    (hc : cs.count k = 1) :
    (cs.map (fun c => if (k == c) = true then v else 0)).sum = v := by
  induction cs with
  | nil => simp at hc
  | cons c cs ih =>
    rw [List.map_cons, List.sum_cons, List.count_cons] at *
    by_cases h : k = c
    · subst h
      have h0 : k ∉ cs := by
        rw [← List.count_eq_zero]
        simp only [beq_self_eq_true, if_true] at hc
        omega
      have hz : cs.map (fun c => if (k == c) = true then v else 0)
          = cs.map (fun _ => (0 : ℚ)) :=
        List.map_congr_left (fun d hd => by
          have hne : ¬((k == d) = true) := by
            intro hkd
            exact h0 (by
              have hkd2 : k = d := by simpa using hkd
              rw [hkd2]
              exact hd)
          rw [if_neg hne])
      rw [if_pos (beq_self_eq_true k), hz]
      simp
    · have hck : ¬((c == k) = true) := by
        simp only [beq_iff_eq]
        exact fun hh => h hh.symm
      have h1 : cs.count k = 1 := by
        rw [if_neg hck] at hc
        omega
      rw [if_neg (by simpa using h), ih h1, zero_add]

theorem sum_expSumIn (l : List Transaction)
    (h : ∀ t ∈ l, t.category ∈ CATEGORIES) :
    (CATEGORIES.map (fun c => expSumIn l c)).sum =
      ((l.filter (fun t => t.kind == "Expense")).map
        (fun t => t.amount.val)).sum := by
  induction l with
  | nil =>
    have h0 : CATEGORIES.map (fun c => expSumIn [] c)
        = CATEGORIES.map (fun _ => (0 : ℚ)) :=
      List.map_congr_left (fun c _ => rfl)
    rw [h0]
    simp
  | cons t l ih =>
    have hstep : CATEGORIES.map (fun c => expSumIn (t :: l) c)
        = CATEGORIES.map (fun c =>
            (if (t.kind == "Expense" && t.category == c) = true then
              t.amount.val else 0) + expSumIn l c) :=
      List.map_congr_left (fun c _ => expSumIn_cons t l c)
    rw [hstep, List.sum_map_add,
      ih (fun u hu => h u (List.mem_cons_of_mem t hu)), List.filter_cons]
    by_cases ht : (t.kind == "Expense") = true
    · have hc1 : CATEGORIES.map (fun c =>
            if (t.kind == "Expense" && t.category == c) = true then
              t.amount.val else 0)
          = CATEGORIES.map (fun c =>
              if (t.category == c) = true then t.amount.val else 0) :=
        List.map_congr_left (fun c _ => by rw [ht, Bool.true_and])
      rw [hc1, sum_if_mem CATEGORIES t.category t.amount.val
          (count_CATEGORIES t.category (h t (List.mem_cons_self t l))),
        if_pos ht, List.map_cons, List.sum_cons]
    · have hbf : (t.kind == "Expense") = false := by
        revert ht
        cases t.kind == "Expense" <;> simp
      have hc1 : CATEGORIES.map (fun c =>
            if (t.kind == "Expense" && t.category == c) = true then
              t.amount.val else 0)
          = CATEGORIES.map (fun _ => (0 : ℚ)) :=
        List.map_congr_left (fun c _ => by
          rw [hbf, Bool.false_and, if_neg Bool.false_ne_true])
      rw [hc1, if_neg ht]
      simp

theorem cat_fold (l : List Transaction) (m : List (String × ℚ))
    (hk : m.map Prod.fst = CATEGORIES)
    (hl : ∀ t ∈ l, t.category ∈ CATEGORIES) :
    l.foldl
        (fun acc t => acc.bind (fun mm =>
          if t.kind == "Expense" then
            DataManager.dictAdd mm t.category t.amount.val
          else some mm)) (some m)
      = some (m.map (fun p => (p.1, p.2 + expSumIn l p.1))) := by
  induction l generalizing m with
  | nil =>
    rw [List.foldl_nil]
    have hid : m.map (fun p => (p.1, p.2 + expSumIn [] p.1)) = m := by
      refine (List.map_congr_left fun p _ => ?_).trans (List.map_id m)
      show (p.1, p.2 + expSumIn [] p.1) = id p
      rw [show expSumIn [] p.1 = 0 from rfl, add_zero]
      rfl
    rw [hid]
  | cons t l ih =>
    rw [List.foldl_cons]
    show l.foldl _
        (if (t.kind == "Expense") = true then
          DataManager.dictAdd m t.category t.amount.val
        else some m) = _
    by_cases ht : (t.kind == "Expense") = true
    · rw [if_pos ht,
        dictAdd_of_mem m t.category t.amount.val
          (by rw [hk]; exact hl t (List.mem_cons_self t l)),
        ih (m.map (bump t.category t.amount.val)) (by rw [bump_keys, hk])
          (fun u hu => hl u (List.mem_cons_of_mem t hu))]
      congr 1
      rw [List.map_map]
      refine List.map_congr_left fun p _ => ?_
      show (fun q : String × ℚ => (q.1, q.2 + expSumIn l q.1))
            (bump t.category t.amount.val p)
          = (p.1, p.2 + expSumIn (t :: l) p.1)
      rw [expSumIn_cons]
      unfold bump
      by_cases hc : (p.1 == t.category) = true
      · have hcond : (t.kind == "Expense" && t.category == p.1) = true := by
          have hpe : p.1 = t.category := by simpa using hc
          rw [ht, Bool.true_and, hpe]
          exact beq_self_eq_true t.category
        rw [if_pos hc, hcond, if_pos rfl]
        show (p.1, p.2 + t.amount.val + expSumIn l p.1)
            = (p.1, p.2 + (t.amount.val + expSumIn l p.1))
        rw [add_assoc]
      · have hcond : (t.kind == "Expense" && t.category == p.1) = false := by
          have hpe : t.category ≠ p.1 := fun hh =>
            hc (by rw [hh]; exact beq_self_eq_true p.1)
          simp [hpe]
        rw [if_neg hc, hcond, if_neg Bool.false_ne_true]
        show (p.1, p.2 + expSumIn l p.1) = (p.1, p.2 + (0 + expSumIn l p.1))
        rw [zero_add]
    · rw [if_neg ht,
        ih m hk (fun u hu => hl u (List.mem_cons_of_mem t hu))]
      congr 1
      refine List.map_congr_left fun p _ => ?_
      have hbf : (t.kind == "Expense") = false := by
        revert ht
        cases t.kind == "Expense" <;> simp
      rw [expSumIn_cons, hbf, Bool.false_and, if_neg Bool.false_ne_true,
        zero_add]

/-- C7 counterexample: the claim says `categoryTotals()` returns the fixed
key set regardless of which categories appear in data. On a ledger whose
single expense carries the unknown category `"Pets"`,
`totals[t.category] += t.amount` raises `KeyError` instead of returning a
mapping. -/
theorem category_totals_unknown_counterexample :
    DataManager.category_totals petsState = none := by rfl

/-- C7 amended: whenever every transaction's category is in the fixed
enumeration (the §3 data-model invariant), `categoryTotals()` returns
exactly the mapping that sends each of the 7 fixed categories, in order,
to the sum of the Expense amounts in that category — so every category is
present, a category with no expenses maps to zero (stated explicitly), and
the values sum to `expenseTotal()`; an expense with a category outside the
set instead makes it fail with a `KeyError`. -/
theorem category_totals_amended (s : State)
    (h : ∀ t ∈ s.transactions, t.category ∈ CATEGORIES) :
    DataManager.category_totals s =
      some (CATEGORIES.map (fun c => (c, expSumIn s.transactions c))) ∧
    (CATEGORIES.map (fun c => (c, expSumIn s.transactions c))).map Prod.fst
      = CATEGORIES ∧
    (∀ c ∈ CATEGORIES,
      (∀ t ∈ s.transactions, t.kind = "Expense" → t.category ≠ c) →
        (c, (0 : ℚ)) ∈ CATEGORIES.map (fun c => (c, expSumIn s.transactions c))) ∧
    ((CATEGORIES.map (fun c => (c, expSumIn s.transactions c))).map
      Prod.snd).sum = DataManager.expense_total s := by
  refine ⟨?_, ?_, ?_, ?_⟩
  · unfold DataManager.category_totals
    rw [cat_fold s.transactions (CATEGORIES.map (fun c => (c, (0 : ℚ))))
        (by
          rw [List.map_map]
          exact (List.map_congr_left (fun c _ => rfl)).trans (List.map_id _))
        h]
    congr 1
    rw [List.map_map]
    refine List.map_congr_left fun c _ => ?_
    show (c, 0 + expSumIn s.transactions c) = (c, expSumIn s.transactions c)
    rw [zero_add]
  · rw [List.map_map]
    exact (List.map_congr_left (fun c _ => rfl)).trans (List.map_id _)
  · intro c hc hnone
    exact List.mem_map.mpr
      ⟨c, hc, by rw [expSumIn_eq_zero s.transactions c hnone]⟩
  · rw [List.map_map]
    exact sum_expSumIn s.transactions h

/-- Witness for C7: on the one-expense ledger every category is in the
enumeration, so the totals mapping sends every fixed category to its
expense sum, keeps the full key set, maps expense-free categories to zero,
and its values sum to the expense total. -/
theorem category_totals_amended_witness :
    DataManager.category_totals oneTxnState =
      some (CATEGORIES.map (fun c => (c, expSumIn oneTxnState.transactions c))) ∧
    (CATEGORIES.map (fun c =>
      (c, expSumIn oneTxnState.transactions c))).map Prod.fst = CATEGORIES ∧
    (∀ c ∈ CATEGORIES,
      (∀ t ∈ oneTxnState.transactions, t.kind = "Expense" → t.category ≠ c) →
        (c, (0 : ℚ)) ∈ CATEGORIES.map (fun c =>
          (c, expSumIn oneTxnState.transactions c))) ∧
    ((CATEGORIES.map (fun c =>
      (c, expSumIn oneTxnState.transactions c))).map Prod.snd).sum
      = DataManager.expense_total oneTxnState :=
  category_totals_amended oneTxnState (by decide)

end BudgetBud
